import Mathlib

set_option maxHeartbeats 1000000

/- Shallow embedding of the BarGen barcode generator
   (src/js/generators/generators.js) and its DataMatrix / GS1 rotation
   controllers (src/js/controllers/dm.controller.js,
   src/js/controllers/gs1.controller.js).

   Embedding conventions: JS numbers holding integral values are embedded as
   Nat; decimal quantities as exact scaled decimals (DecNum, value m / 10^e),
   which matches the JS doubles bit-for-bit in the ranges the program uses;
   timer seconds as rationals; JS strings as Lean strings.  The modules
   js/app/config.js, js/app/utils.js and js/app/state.js are part of the
   repository but are not available under src/: definitions taken from them
   are explicitly marked "Modelled from the spec". -/

namespace BarGen

/-- Modelled from the spec: Utils.padZeros (js/app/utils.js is not under
src/).  Left-pads the string with zeros to the requested width
(spec 4.2 "padLeft(n,'0')"); a string already at least that long is
returned unchanged. -/
def padZeros (s : String) (n : Nat) : String :=
  ⟨List.replicate (n - s.data.length) '0' ++ s.data⟩

/-- Numeric variant of padZeros: the JS call sites pass numbers, which are
converted to their decimal string first. -/
def padZerosNat (v : Nat) (n : Nat) : String := padZeros (Nat.repr v) n

/-- Weighted digit sum used by the EAN-13 check digit: position `i` is
1-indexed from the left, odd positions weigh 1, even positions weigh 3. -/
def ean13Sum : List Char → Nat → Nat
  | [], _ => 0
  | c :: rest, i => (c.toNat - 48) * (if i % 2 = 1 then 1 else 3) + ean13Sum rest (i + 1)

/-- Modelled from the spec (4.1): Utils.calcControlEAN13 (js/app/utils.js is
not under src/), the weighted mod-10 EAN-13 check digit with result
`(10 - (sum mod 10)) mod 10`. -/
def calcControlEAN13 (s : String) : Nat := (10 - ean13Sum s.data 1 % 10) % 10

/-- Weighted digit sum for the proprietary "core" check digit, weights
alternating 3,1 applied right-to-left (the list is consumed reversed). -/
def coreSum : List Char → Nat → Nat
  | [], _ => 0
  | c :: rest, i => (c.toNat - 48) * (if i % 2 = 0 then 3 else 1) + coreSum rest (i + 1)

/-- Modelled from the spec (4.1): Utils.calcControlCore (js/app/utils.js is
not under src/).  The spec only says it is a fixed proprietary mod-10 scheme
with odd/even positional weights applied right-to-left; none of the
properties verified below depend on its concrete values. -/
def calcControlCore (s : String) : Nat := (10 - coreSum s.data.reverse 0 % 10) % 10

/-- JS String.prototype.trim for the character set that actually occurs in
this program (ASCII whitespace). -/
def jsWhitespace (c : Char) : Bool :=
  c == ' ' || c == '\t' || c == '\n' || c == '\r'

/-- Embedding of `value.trim()`: drop leading and trailing whitespace. -/
def jsTrim (s : String) : String :=
  ⟨((s.data.dropWhile jsWhitespace).reverse.dropWhile jsWhitespace).reverse⟩

/-- Embedding of `s.replace(/\D/g, '')`: keep only decimal digits. -/
def digitsOf (s : String) : String := ⟨s.data.filter Char.isDigit⟩

/-- Embedding of the JS truthy-or idiom `opt || alt` on strings: an absent or
empty string falls back to the alternative. -/
def jsOrStr : Option String → String → String
  | some u, alt => if u = "" then alt else u
  | none, alt => alt

/-- Result record of generateWeightBarcode (generators.js line 138). -/
structure WeightBarcode where
  code : String
  format : String
  weight : Nat
  plu : String
  pfx : String
  discount : Nat
deriving DecidableEq

/-- Embedding of Generators.generateWeightBarcode (generators.js lines
118-146).  The JS `prefix` parameter is named `pfx` here because `prefix` is
reserved in Lean.  Note the source has no error path: every prefix other
than '77' and '49' falls into the final `else`, which builds the
'22'-prefixed EAN-13 weight format. -/
def generateWeightBarcode (pfx plu : String) (weight : Nat) (discount : Nat) : WeightBarcode :=
  if pfx = "77" then
    { code := "77" ++ padZeros plu 6 ++ padZerosNat weight 7 ++ "0"
      format := "CODE128", weight := weight, plu := plu, pfx := pfx, discount := discount }
  else if pfx = "49" then
    let base := "49" ++ padZeros plu 9 ++ padZerosNat discount 2 ++ padZerosNat weight 5
    { code := base ++ Nat.repr (calcControlCore base)
      format := "CODE128", weight := weight, plu := plu, pfx := pfx, discount := discount }
  else
    let base := "22" ++ padZeros plu 5 ++ padZerosNat weight 5
    { code := base ++ Nat.repr (calcControlEAN13 base)
      format := "EAN13", weight := weight, plu := plu, pfx := pfx, discount := discount }

/-- Result record of generateSimple (generators.js line 212). -/
structure SimpleBarcode where
  code : String
  format : String
deriving DecidableEq

/-- Embedding of Generators.generateSimple (generators.js lines 204-216):
trim the input; if the type is EAN13 and the trimmed value is exactly 12
digits, append the EAN-13 check digit, otherwise return the trimmed value
unchanged. -/
def generateSimple (value ty : String) : SimpleBarcode :=
  let code := jsTrim value
  let code :=
    if ty = "EAN13" ∧ code.data.length = 12 ∧ code.data.all Char.isDigit then
      code ++ Nat.repr (calcControlEAN13 code)
    else code
  { code := code, format := ty }

/-- Exact scaled-decimal embedding of the JS numbers used as GS1 quantities:
the value is `m / 10^e`.  The form inputs of the program (parseFloat of a
decimal literal, values rounded to two decimals) are all of this shape, and
JS double arithmetic agrees with the exact value in this range. -/
structure DecNum where
  m : Nat
  e : Nat
deriving DecidableEq

/-- Number of fractional digits of `m / 10^e` once trailing zeros are
stripped; this is the fraction length JS `Number.prototype.toString`
prints (shortest decimal representation). -/
def canonE : Nat → Nat → Nat
  | _, 0 => 0
  | m, e + 1 => if m % 10 = 0 then canonE (m / 10) e else e + 1

/-- Embedding of `quantity.toString()`: the shortest decimal representation
of `m / 10^e`. -/
def decToString (q : DecNum) : String :=
  let e := canonE q.m q.e
  let m := q.m / 10 ^ (q.e - e)
  if e = 0 then Nat.repr m
  else Nat.repr (m / 10 ^ e) ++ "." ++ padZeros (Nat.repr (m % 10 ^ e)) e

/-- Embedding of Generators.calculateDecimalPosition (generators.js lines
373-378): find the decimal point in the number's string representation and
count the digits after it (0 when there is none). -/
def calculateDecimalPosition (q : DecNum) : Nat :=
  let str := decToString q
  match str.data.findIdx? (fun c => c = '.') with
  | none => 0
  | some dotIndex => str.data.length - dotIndex - 1

/-- Embedding of `Math.round(quantity * Math.pow(10, decimalPosition))`
(generators.js line 428) in exact arithmetic: for `q = m / 10^e`, this is
`m * 10^(dp-e)` when `dp ≥ e`, and half-up rounding of `m / 10^(e-dp)`
otherwise. -/
def qtyRawOf (q : DecNum) (dp : Nat) : Nat :=
  if q.e ≤ dp then q.m * 10 ^ (dp - q.e)
  else (2 * q.m + 10 ^ (q.e - dp)) / (2 * 10 ^ (q.e - dp))

/-- Alphabet of generateUniqueId (generators.js line 228). -/
def uidAlphabet : List Char := "ABCDEFGHIJKLMNOPQRSTUVWXYZ0123456789".data

/-- Embedding of Generators.generateUniqueId (generators.js lines 227-234):
8 characters drawn from the 36-symbol alphabet.  The `Math.random()` draws
are supplied by the caller as `rand` (the i-th draw picks index
`rand i % 36`). -/
def generateUniqueId (rand : Nat → Nat) : String :=
  ⟨(List.range 8).map fun i => uidAlphabet.getD (rand i % 36) 'A'⟩

/-- Modelled from the spec: Config.GS1_CONSTANTS.GS_CHAR (js/app/config.js is
not under src/); the GS1 group separator, ASCII 29. -/
def gsChar : Char := Char.ofNat 29

/-- Group separator as a one-character string. -/
def gsStr : String := ⟨[gsChar]⟩

/-- Modelled from the spec: Config.GS1_CONSTANTS.PREFIX, the fixed payload
header; value taken from the worked example in the generateGS1Code doc
comment (generators.js line 403). -/
def gs1Header : String := "99MPUC"

/-- Modelled from the spec: Config.GS1_CONSTANTS AI markers (js/app/config.js
is not under src/); values from spec 4.2 and the generateGS1Code doc
comment. -/
def aiGoodsId : String := "240"

def aiQuantity : String := "37"

def aiWeight : String := "3103"

def aiDiscount : String := "98"

def aiUniqueId : String := "21"

def aiDecimalPos : String := "97"

/-- Errors thrown by generateGS1Code (generators.js lines 412 and 458). -/
inductive GS1Error where
  | missingGoodsId
  | invalidProductType
deriving DecidableEq

/-- Parameter object of generateGS1Code.  A JS `undefined` field is `none`;
`discount` defaults to 0 (`params.discount > 0` is false on undefined). -/
structure GS1Params where
  goodsId : String
  type : String
  quantity : Option DecNum := none
  weight : Option Nat := none
  discount : Nat := 0
  uniqueId : Option String := none
  decimalPosition : Option Nat := none
deriving DecidableEq

/-- Embedding of Generators.generateGS1Code (generators.js lines 405-462).
The goodsId is stripped of non-digits and truncated to 8 characters; an
empty result throws MissingGoodsId; type 'piece' emits AI 37 (plus optional
AI 98/21 and AI 97), type 'weight' emits AI 3103 (plus optional AI 98/21),
anything else throws InvalidProductType.  The `Math.random()` draws behind
generateUniqueId are supplied as `rand`. -/
def generateGS1Code (p : GS1Params) (rand : Nat → Nat) : Except GS1Error String :=
  let goodsId : String := ⟨(digitsOf p.goodsId).data.take 8⟩
  if goodsId = "" then .error .missingGoodsId
  else
    let code₁ := gs1Header ++ gsStr ++ aiGoodsId ++ goodsId ++ gsStr
    if p.type = "piece" then
      let q := p.quantity.getD ⟨0, 0⟩
      let dp := p.decimalPosition.getD (calculateDecimalPosition q)
      let qtyRaw := qtyRawOf q dp
      let code₂ := code₁ ++ aiQuantity ++ padZerosNat qtyRaw 8 ++ gsStr
      let code₃ :=
        if 0 < p.discount then
          code₂ ++ aiDiscount ++ padZerosNat p.discount 2 ++ gsStr
            ++ aiUniqueId ++ jsOrStr p.uniqueId (generateUniqueId rand) ++ gsStr
        else code₂
      let code₄ := if 0 < dp then code₃ ++ aiDecimalPos ++ Nat.repr dp ++ gsStr else code₃
      .ok code₄
    else if p.type = "weight" then
      let w := p.weight.getD 0
      let code₂ := code₁ ++ aiWeight ++ padZerosNat w 6 ++ gsStr
      let code₃ :=
        if 0 < p.discount then
          code₂ ++ aiDiscount ++ padZerosNat p.discount 2 ++ gsStr
            ++ aiUniqueId ++ jsOrStr p.uniqueId (generateUniqueId rand) ++ gsStr
        else code₂
      .ok code₃
    else .error .invalidProductType

/-- Layout of a DataMatrix template that embeds AI 01: the GTIN zero-padded
to 14 digits after the literal marker "01", followed by the rest of the
template's fixed segments. -/
def templateLayout01 (sfx : String) (g : String) : String :=
  "01" ++ padZeros g 14 ++ sfx

/-- Modelled from the spec: the fixed trailing segments of the two
Config.TEMPLATES layouts (js/app/config.js is not under src/; spec 3 says a
template immutably maps a GTIN to a full AI-01-tagged payload).  The
concrete serial segments are placeholders; the properties verified below
are insensitive to their content. -/
def templateSfx : String → String
  | "type2" => "21SN0002"
  | _ => "21SN0001"

/-- Modelled from the spec: the human-readable template names. -/
def templateDisplayName : String → String
  | "type2" => "Type 2"
  | _ => "Type 1"

/-- Modelled from the spec: `template.generate(usedBarcode)` for the looked-up
template (generators.js line 53): an AI-01 layout over the template's fixed
suffix. -/
def templateGenerate (tid : String) (g : String) : String :=
  templateLayout01 (templateSfx tid) g

/-- Leftmost-match search of the regex `/01(\d{14})/` (generators.js line
248): at each position, succeed if the text continues with "01" followed by
14 digits, otherwise move one character right. -/
def findAI01 : List Char → Option (List Char)
  | [] => none
  | c :: rest =>
    if c = '0' ∧ rest.take 1 = ['1'] ∧ ((rest.drop 1).take 14).length = 14
        ∧ ((rest.drop 1).take 14).all Char.isDigit
    then some ((rest.drop 1).take 14)
    else findAI01 rest

/-- Embedding of Generators.extractEAN13FromDM (generators.js lines 246-257):
find the first 14-digit run after the literal "01"; on failure return null;
otherwise drop the leading digit of the GTIN-14, recompute the EAN-13 check
digit over the remaining 12 digits and return the 13-digit result. -/
def extractEAN13FromDM (dmCode : String) : Option String :=
  match findAI01 dmCode.data with
  | none => none
  | some gtin14 =>
    let ean12 : String := ⟨(gtin14.drop 1).take 12⟩
    some (ean12 ++ Nat.repr (calcControlEAN13 ean12))

/-- Double-scan modes of the DataMatrix controller
(dm.controller.js lines 452-458). -/
inductive DSMode where
  | sameDM
  | dmEan
  | sameEan
  | differentDM
deriving DecidableEq

/-- Secondary-code record built by generateAndDisplay (dm.controller.js lines
54-97); `code` is an Option because the dmEan/sameEan extraction can yield
null, and `barcode` is undefined in demo mode. -/
structure SecondaryCode where
  type : String
  code : Option String
  barcode : Option String := none
deriving DecidableEq

/-- Entry of the dm.generatedCodes cache (dm.controller.js lines 102-110 and
117-125). -/
structure DmEntry where
  code : String
  barcode : String
  templateName : String
  rotationIdx : Nat
  doubleScanMode : Option DSMode
  primaryDisplayAsEan : Bool
  secondaryCode : Option SecondaryCode
deriving DecidableEq, Inhabited

/-- Item of a DataMatrix rotation folder (dm.controller.js line 254). -/
structure DmItem where
  barcode : String
  template : String
  active : Bool := true
deriving DecidableEq, Inhabited

/-- State of the DataMatrix controller (the State.dm fields the controller
reads and writes); `displayedPrimary`/`displayedSecondary` model the code
text the UI currently shows (updateCodeText). -/
structure DmState where
  selectedTemplate : String := "type1"
  rotationList : List DmItem := []
  rotationIndex : Nat := 0
  isRotating : Bool := false
  generatedCodes : List DmEntry := []
  codeHistoryIndex : Int := -1
  timerValue : ℚ := 2
  remaining : ℚ := 2
  timerRunning : Bool := false
  displayedPrimary : String := ""
  displayedSecondary : Option SecondaryCode := none
deriving DecidableEq

/-- Item of a GS1 rotation folder (gs1.controller.js lines 131-143); `code`
is the payload pre-generated by addItems. -/
structure Gs1Item where
  goodsId : String := ""
  type : String := "piece"
  code : String := ""
  discount : Nat := 0
  active : Bool := true
deriving DecidableEq, Inhabited

/-- State of the GS1 controller (the State.gs1 fields the controller reads
and writes). -/
structure Gs1State where
  rotationItems : List Gs1Item := []
  rotationIndex : Nat := 0
  isRotating : Bool := false
  timerValue : ℚ := 3
  remaining : ℚ := 3
  timerRunning : Bool := false
  displayedCode : String := ""
deriving DecidableEq

/-- Combined application state: the two controller states, the demo-GTIN
round-robin cursor (State.getNextDemoGtin) and the process-wide activity log
appended to by State.addToHistory. -/
structure AppState where
  dm : DmState := {}
  gs1 : Gs1State := {}
  demoIndex : Nat := 0
  history : List (String × String) := []
deriving DecidableEq

/-- Modelled from the spec: the fixed demo GTIN list (js/app/config.js is not
under src/; spec 6 describes a round-robin demo list).  The content is
immaterial to the properties verified below. -/
def DEMO_GTINS : List String := ["4810099003310", "4606224236186"]

/-- Modelled from the spec: State.getNextDemoGtin (js/app/state.js is not
under src/); round-robin over the fixed demo list. -/
def getNextDemoGtin (s : AppState) : String × AppState :=
  (DEMO_GTINS.getD (s.demoIndex % DEMO_GTINS.length) "",
   { s with demoIndex := s.demoIndex + 1 })

/-- Result record of generateDM (generators.js lines 58-62). -/
structure DMResult where
  code : String
  templateName : String
  barcode : String
deriving DecidableEq

/-- Embedding of Generators.generateDM (generators.js lines 44-63): look up
the template (the passed id, falling back to the selected one), use the demo
GTIN when no barcode is provided (JS falsy check, so the empty string also
falls back), generate the code and append it to the activity log
(State.addToHistory). -/
def generateDM (barcode? : Option String) (tid? : Option String) (s : AppState) :
    DMResult × AppState :=
  let tid := jsOrStr tid? s.dm.selectedTemplate
  let pair :=
    match barcode? with
    | some b => if b = "" then getNextDemoGtin s else (b, s)
    | none => getNextDemoGtin s
  let code := templateGenerate tid pair.1
  ({ code := code, templateName := templateDisplayName tid, barcode := pair.1 },
   { pair.2 with history := pair.2.history ++ [("DM", code)] })

namespace DM

/-- Embedding of Controllers.DM.generateAndDisplay (dm.controller.js lines
33-143): in rotation mode generate the item under the rotation cursor and
advance the cursor modulo the list length, otherwise generate a demo code;
build the secondary code per the active double-scan mode; push a cache
entry; point the history cursor at it; display the result. -/
def generateAndDisplay (ds : Option DSMode) (s : AppState) : AppState :=
  if s.dm.isRotating ∧ 0 < s.dm.rotationList.length then
    let item := s.dm.rotationList.getD s.dm.rotationIndex default
    let result := (generateDM (some item.barcode) (some item.template) s).1
    let s₁ := (generateDM (some item.barcode) (some item.template) s).2
    let currentRotationIdx := s.dm.rotationIndex
    let len := s.dm.rotationList.length
    let s₂ := { s₁ with dm := { s₁.dm with rotationIndex := (s.dm.rotationIndex + 1) % len } }
    let triple : Option SecondaryCode × Bool × AppState :=
      match ds with
      | none => (none, false, s₂)
      | some .sameDM =>
        (some { type := "DM", code := some result.code, barcode := some item.barcode },
         false, s₂)
      | some .dmEan =>
        (some { type := "EAN13", code := extractEAN13FromDM result.code }, false, s₂)
      | some .sameEan =>
        (some { type := "EAN13", code := extractEAN13FromDM result.code }, true, s₂)
      | some .differentDM =>
        let nextBarcode := (s.dm.rotationList.getD (s₂.dm.rotationIndex % len) default).barcode
        let tid2 := (s.dm.rotationList.getD ((s₂.dm.rotationIndex + len - 1) % len) default).template
        let r2 := generateDM (some nextBarcode) (some tid2) s₂
        (some { type := "DM", code := some r2.1.code, barcode := some nextBarcode },
         false, r2.2)
    let s₃ := triple.2.2
    let entry : DmEntry :=
      { code := result.code, barcode := item.barcode, templateName := result.templateName,
        rotationIdx := currentRotationIdx, doubleScanMode := ds,
        primaryDisplayAsEan := triple.2.1, secondaryCode := triple.1 }
    { s₃ with dm := { s₃.dm with
        generatedCodes := s₃.dm.generatedCodes ++ [entry],
        codeHistoryIndex := (s₃.dm.generatedCodes.length : Int),
        displayedPrimary := result.code,
        displayedSecondary := triple.1 } }
  else
    let result := (generateDM none none s).1
    let s₁ := (generateDM none none s).2
    let triple : Option SecondaryCode × Bool × AppState :=
      match ds with
      | none => (none, false, s₁)
      | some .sameDM =>
        (some { type := "DM", code := some result.code, barcode := none }, false, s₁)
      | some .dmEan =>
        (some { type := "EAN13", code := extractEAN13FromDM result.code }, false, s₁)
      | some .sameEan =>
        (some { type := "EAN13", code := extractEAN13FromDM result.code }, true, s₁)
      | some .differentDM =>
        let nextBarcode := (getNextDemoGtin s₁).1
        let s₃ := (getNextDemoGtin s₁).2
        let r2 := generateDM (some nextBarcode) (some s.dm.selectedTemplate) s₃
        (some { type := "DM", code := some r2.1.code, barcode := some nextBarcode },
         false, r2.2)
    let s₂ := triple.2.2
    let entry : DmEntry :=
      { code := result.code, barcode := result.barcode, templateName := result.templateName,
        rotationIdx := s₂.dm.generatedCodes.length, doubleScanMode := ds,
        primaryDisplayAsEan := triple.2.1, secondaryCode := triple.1 }
    { s₂ with dm := { s₂.dm with
        generatedCodes := s₂.dm.generatedCodes ++ [entry],
        codeHistoryIndex := (s₂.dm.generatedCodes.length : Int),
        displayedPrimary := result.code,
        displayedSecondary := triple.1 } }

/-- Embedding of Controllers.DM.displayFromCache (dm.controller.js lines
150-184): out-of-range indices are ignored; otherwise the history cursor
moves to the index and the cached entry is redisplayed without any
regeneration and without touching the activity log. -/
def displayFromCache (index : Int) (s : AppState) : AppState :=
  if index < 0 ∨ (s.dm.generatedCodes.length : Int) ≤ index then s
  else
    let cached := s.dm.generatedCodes.getD index.toNat default
    { s with dm := { s.dm with
        codeHistoryIndex := index,
        displayedPrimary := cached.code,
        displayedSecondary := cached.secondaryCode } }

/-- Embedding of Controllers.DM.stopTimer (dm.controller.js lines 219-228). -/
def stopTimer (s : AppState) : AppState :=
  { s with dm := { s.dm with timerRunning := false } }

/-- Embedding of Controllers.DM.startTimer (dm.controller.js lines 189-214):
clear the previous timer, jump to the end of history if the user was
browsing it, reset the countdown and arm the timer. -/
def startTimer (s : AppState) : AppState :=
  let s₁ := stopTimer s
  let s₂ :=
    if 0 < s₁.dm.generatedCodes.length ∧
        s₁.dm.codeHistoryIndex < (s₁.dm.generatedCodes.length : Int) - 1 then
      displayFromCache ((s₁.dm.generatedCodes.length : Int) - 1) s₁
    else s₁
  { s₂ with dm := { s₂.dm with remaining := s₂.dm.timerValue, timerRunning := true } }

/-- Embedding of Controllers.DM.setInterval (dm.controller.js lines 235-241):
a NaN (here `none`) or non-positive value is ignored with no state change;
otherwise timerValue and remaining are set and startTimer runs
unconditionally. -/
def setInterval (value : Option ℚ) (s : AppState) : AppState :=
  match value with
  | none => s
  | some v =>
    if v ≤ 0 then s
    else startTimer { s with dm := { s.dm with timerValue := v, remaining := v } }

/-- Embedding of Controllers.DM.manualNext (dm.controller.js lines 310-346):
with a full rotation history, cycle through the cached entries modulo the
rotation-list length; while browsing history, step forward in the cache; at
the end of history, replay from the start once every distinct rotation index
has been generated, and generate a new code otherwise. -/
def manualNext (ds : Option DSMode) (s : AppState) : AppState :=
  let dm := s.dm
  if 0 < dm.rotationList.length ∧ dm.rotationList.length ≤ dm.generatedCodes.length then
    displayFromCache (Int.tmod (dm.codeHistoryIndex + 1) dm.rotationList.length) s
  else if 0 < dm.generatedCodes.length ∧
      dm.codeHistoryIndex < (dm.generatedCodes.length : Int) - 1 then
    displayFromCache (dm.codeHistoryIndex + 1) s
  else if 0 < dm.rotationList.length ∧
      dm.rotationList.length ≤ ((dm.generatedCodes.map (fun e => e.rotationIdx)).dedup).length then
    displayFromCache 0 s
  else
    generateAndDisplay ds s

end DM

namespace GS1

/-- Embedding of Controllers.GS1.displayCode (gs1.controller.js lines
260-298), the auto-rotation display: show the item under the rotation
cursor, advance the cursor, and append the displayed code to the activity
log (State.addToHistory) — on every call, although the item's payload was
generated earlier by addItems. -/
def displayCode (s : AppState) : AppState :=
  if s.gs1.rotationItems.length = 0 then s
  else
    let item := s.gs1.rotationItems.getD (s.gs1.rotationIndex % s.gs1.rotationItems.length) default
    { s with
      gs1 := { s.gs1 with displayedCode := item.code, rotationIndex := s.gs1.rotationIndex + 1 },
      history := s.history ++ [("GS1", item.code)] }

/-- Embedding of Controllers.GS1.displayCodeManual (gs1.controller.js lines
303-336): the manual-navigation display; identical to displayCode except
that it never touches the activity log. -/
def displayCodeManual (s : AppState) : AppState :=
  if s.gs1.rotationItems.length = 0 then s
  else
    let item := s.gs1.rotationItems.getD (s.gs1.rotationIndex % s.gs1.rotationItems.length) default
    { s with
      gs1 := { s.gs1 with displayedCode := item.code, rotationIndex := s.gs1.rotationIndex + 1 } }

/-- Embedding of Controllers.GS1.stopTimer (gs1.controller.js lines 382-387). -/
def stopTimer (s : AppState) : AppState :=
  { s with gs1 := { s.gs1 with timerRunning := false } }

/-- Embedding of Controllers.GS1.startTimer (gs1.controller.js lines
364-377): clear the previous timer, reset the countdown and arm the timer. -/
def startTimer (s : AppState) : AppState :=
  let s₁ := stopTimer s
  { s₁ with gs1 := { s₁.gs1 with remaining := s₁.gs1.timerValue, timerRunning := true } }

/-- Embedding of Controllers.GS1.setInterval (gs1.controller.js lines
394-402): a NaN (here `none`) or non-positive value is ignored with no state
change; otherwise timerValue is set and the timer restarted only when
rotation is running. -/
def setInterval (value : Option ℚ) (s : AppState) : AppState :=
  match value with
  | none => s
  | some v =>
    if v ≤ 0 then s
    else
      let s₁ := { s with gs1 := { s.gs1 with timerValue := v } }
      if s₁.gs1.isRotating then startTimer s₁ else s₁

end GS1

/-- Operations over the combined state used to audit the activity-log
side-channel: new-code generation, cache replay and the two GS1 rotation
displays. -/
inductive AppOp where
  | dmGenerate (ds : Option DSMode)
  | dmDisplayCache (index : Int)
  | gs1Display
  | gs1DisplayManual
deriving DecidableEq

def applyOp : AppOp → AppState → AppState
  | .dmGenerate ds, s => DM.generateAndDisplay ds s
  | .dmDisplayCache i, s => DM.displayFromCache i s
  | .gs1Display, s => GS1.displayCode s
  | .gs1DisplayManual, s => GS1.displayCodeManual s

/-- Number of newly generated payloads in one generateAndDisplay call: the
differentDM double-scan mode generates a second DataMatrix, every other mode
generates exactly one payload. -/
def newPayloads (ds : Option DSMode) : Nat :=
  if ds = some .differentDM then 2 else 1

/-- Number of activity-log appends (State.addToHistory calls) one operation
performs in the given state. -/
def opLogCount (op : AppOp) (s : AppState) : Nat :=
  match op with
  | .dmGenerate ds => newPayloads ds
  | .dmDisplayCache _ => 0
  | .gs1Display => if s.gs1.rotationItems.length = 0 then 0 else 1
  | .gs1DisplayManual => 0

def runOps : List AppOp → AppState → AppState
  | [], s => s
  | op :: rest, s => runOps rest (applyOp op s)

def opsLogCount : List AppOp → AppState → Nat
  | [], _ => 0
  | op :: rest, s => opLogCount op s + opsLogCount rest (applyOp op s)

/- ------------------------------------------------------------------ -/
/- Helper lemmas                                                       -/
/- ------------------------------------------------------------------ -/

lemma calcControlEAN13_le_nine (s : String) : calcControlEAN13 s ≤ 9 := by
  unfold calcControlEAN13; omega

lemma repr_digit_data : ∀ n : Nat, n < 10 → (Nat.repr n).data = [Nat.digitChar n] := by
  decide

lemma digitChar_isDigit : ∀ n : Nat, n < 10 → (Nat.digitChar n).isDigit = true := by
  decide

lemma repr_len_le_two : ∀ n : Nat, n < 100 → (Nat.repr n).data.length ≤ 2 := by
  decide

lemma not_jsWhitespace_of_isDigit {c : Char} (h : c.isDigit = true) :
    jsWhitespace c = false := by
  by_contra hw
  have hw' : jsWhitespace c = true := by
    cases hb : jsWhitespace c
    · exact absurd hb hw
    · rfl
  have : ((c = ' ' ∨ c = '\t') ∨ c = '\n') ∨ c = '\r' := by
    simpa [jsWhitespace] using hw'
  rcases this with ((h1 | h1) | h1) | h1 <;> (subst h1; exact absurd h (by decide))

lemma dropWhile_eq_self_of_not {l : List Char}
    (h : ∀ c ∈ l, jsWhitespace c = false) :
    l.dropWhile jsWhitespace = l := by
  cases l with
  | nil => rfl
  | cons a t => simp [List.dropWhile_cons, h a (List.mem_cons_self a t)]

lemma jsTrim_eq_self {s : String} (h : s.data.all Char.isDigit = true) : jsTrim s = s := by
  have hall : ∀ c ∈ s.data, jsWhitespace c = false := fun c hc =>
    not_jsWhitespace_of_isDigit (List.all_eq_true.mp h c hc)
  have hall2 : ∀ c ∈ s.data.reverse, jsWhitespace c = false := fun c hc =>
    hall c (List.mem_reverse.mp hc)
  unfold jsTrim
  rw [dropWhile_eq_self_of_not hall, dropWhile_eq_self_of_not hall2, List.reverse_reverse]

/- ------------------------------------------------------------------ -/
/- C8                                                                  -/
/- ------------------------------------------------------------------ -/

/-- C8: encodeSimple trims its input; on type EAN13 a trimmed 12-digit
numeric value gets the EAN-13 check digit appended; for every 12-digit
numeric string d the check digit is a single digit in [0,9] and
re-submitting the 13-digit result returns it unaltered. -/
theorem simple_ean13_roundtrip (d : String)
    (hlen : d.data.length = 12) (hdig : d.data.all Char.isDigit = true) :
    calcControlEAN13 d ≤ 9 ∧
    (generateSimple d "EAN13").code = d ++ Nat.repr (calcControlEAN13 d) ∧
    (generateSimple (d ++ Nat.repr (calcControlEAN13 d)) "EAN13").code
      = d ++ Nat.repr (calcControlEAN13 d) := by
  have hb := calcControlEAN13_le_nine d
  have hrd : (Nat.repr (calcControlEAN13 d)).data = [Nat.digitChar (calcControlEAN13 d)] :=
    repr_digit_data _ (by omega)
  refine ⟨hb, ?_, ?_⟩
  · simp only [generateSimple]
    rw [jsTrim_eq_self hdig]
    simp [hlen, hdig]
  · have hdata : (d ++ Nat.repr (calcControlEAN13 d)).data.all Char.isDigit = true := by
      rw [String.data_append, List.all_append, hdig, hrd]
      simpa using digitChar_isDigit _ (by omega)
    have hlen13 : (d ++ Nat.repr (calcControlEAN13 d)).data.length = 13 := by
      rw [String.data_append, List.length_append, hlen, hrd]
      rfl
    simp only [generateSimple]
    rw [jsTrim_eq_self hdata]
    split
    · next hc =>
        exfalso
        rcases hc with ⟨-, h2, -⟩
        rw [hlen13] at h2
        exact absurd h2 (by decide)
    · rfl

/-- C8 witness at the concrete 12-digit string from the module's doc
comment. -/
theorem simple_ean13_roundtrip_witness :
    ("590123412345".data.length = 12 ∧ "590123412345".data.all Char.isDigit = true) ∧
    (generateSimple ("590123412345" ++ Nat.repr (calcControlEAN13 "590123412345")) "EAN13").code
      = "590123412345" ++ Nat.repr (calcControlEAN13 "590123412345") :=
  ⟨by decide, (simple_ean13_roundtrip "590123412345" (by decide) (by decide)).2.2⟩

/- ------------------------------------------------------------------ -/
/- C2                                                                  -/
/- ------------------------------------------------------------------ -/

/-- C2 counterexample: the claimed concrete value '770001234500150000' (18
characters, taken from the stale JSDoc example) is not what the encoder
produces for ('77','12345',1500); the layout 2+6+7+1 yields the 16-character
code '7701234500015000'. -/
theorem weight77_concrete_value_false :
    ¬ ((generateWeightBarcode "77" "12345" 1500 0).code = "770001234500150000") := by
  decide

/-- C2 amended: for prefix '77' the code is '77' ++ plu left-padded to 6 ++
weight left-padded to 7 ++ the fixed trailing check digit '0', format
CODE128, and in particular encodeWeightBarcode('77','12345',1500).code =
'7701234500015000'. -/
theorem weight77_layout :
    (∀ (plu : String) (w d : Nat),
        (generateWeightBarcode "77" plu w d).code
          = "77" ++ padZeros plu 6 ++ padZerosNat w 7 ++ "0"
        ∧ (generateWeightBarcode "77" plu w d).format = "CODE128")
    ∧ (generateWeightBarcode "77" "12345" 1500 0).code = "7701234500015000" := by
  exact ⟨fun plu w d => ⟨rfl, rfl⟩, by decide⟩

/- ------------------------------------------------------------------ -/
/- C6                                                                  -/
/- ------------------------------------------------------------------ -/

/-- C6 counterexample: for the unrecognized prefix '33' the encoder does not
fail; it produces the '22'-format EAN-13 payload '2212345015009' (the source
has no error path at all: every prefix other than '77' and '49' falls into
the final else branch). -/
theorem weight_unknown_pfx_still_encodes :
    (generateWeightBarcode "33" "12345" 1500 0).code = "2212345015009"
    ∧ (generateWeightBarcode "33" "12345" 1500 0).format = "EAN13" := by
  decide

/-- C6 amended: encodeWeightBarcode never fails; every prefix other than
'77' and '49' (including '22' itself) is encoded exactly like prefix '22',
as the EAN-13 weight format with a literal '22' prefix, only the echoed
pfx field differing. -/
theorem weight_pfx_fallback (pfx plu : String) (w d : Nat)
    (h77 : pfx ≠ "77") (h49 : pfx ≠ "49") :
    generateWeightBarcode pfx plu w d
      = { generateWeightBarcode "22" plu w d with pfx := pfx } := by
  simp [generateWeightBarcode, h77, h49]

/-- C6 witness at the concrete prefix '33'. -/
theorem weight_pfx_fallback_witness :
    (("33" : String) ≠ "77" ∧ ("33" : String) ≠ "49") ∧
    generateWeightBarcode "33" "12345" 1500 0
      = { generateWeightBarcode "22" "12345" 1500 0 with pfx := "33" } :=
  ⟨by decide, weight_pfx_fallback "33" "12345" 1500 0 (by decide) (by decide)⟩

/- ------------------------------------------------------------------ -/
/- C9 and C10                                                          -/
/- ------------------------------------------------------------------ -/

lemma mkTake8_ne_empty {l : List Char} (h : l ≠ []) : (⟨l.take 8⟩ : String) ≠ "" := by
  intro hc
  have h2 : l.take 8 = [] := congrArg String.data hc
  rcases List.take_eq_nil_iff.mp h2 with h8 | hnil
  · exact absurd h8 (by decide)
  · exact h hnil

/-- C9: encodeGS1 raises an error iff the goodsId is empty after stripping
non-digits (MissingGoodsId, checked first) or the type is neither 'piece'
nor 'weight' (InvalidProductType); in all other cases it returns a
payload. -/
theorem gs1_error_iff (p : GS1Params) (rand : Nat → Nat) :
    (generateGS1Code p rand = .error .missingGoodsId ↔ digitsOf p.goodsId = "") ∧
    (generateGS1Code p rand = .error .invalidProductType ↔
      (digitsOf p.goodsId ≠ "" ∧ p.type ≠ "piece" ∧ p.type ≠ "weight")) ∧
    ((∃ c, generateGS1Code p rand = .ok c) ↔
      (digitsOf p.goodsId ≠ "" ∧ (p.type = "piece" ∨ p.type = "weight"))) := by
  by_cases hg : (digitsOf p.goodsId).data = []
  · have hgs : digitsOf p.goodsId = "" := String.ext (by rw [hg])
    have hcode : generateGS1Code p rand = .error .missingGoodsId := by
      simp only [generateGS1Code]
      rw [if_pos (show (⟨(digitsOf p.goodsId).data.take 8⟩ : String) = "" by rw [hg]; decide)]
    refine ⟨?_, ?_, ?_⟩ <;> simp [hcode, hgs]
  · have hgs : digitsOf p.goodsId ≠ "" := fun hc => hg (congrArg String.data hc)
    have hne : ¬ ((⟨(digitsOf p.goodsId).data.take 8⟩ : String) = "") :=
      mkTake8_ne_empty hg
    by_cases hp : p.type = "piece"
    · have hok : ∃ c, generateGS1Code p rand = .ok c := by
        simp only [generateGS1Code]
        rw [if_neg hne, if_pos hp]
        exact ⟨_, rfl⟩
      obtain ⟨c, hc⟩ := hok
      refine ⟨?_, ?_, ?_⟩ <;> simp [hc, hgs, hp]
    · by_cases hw : p.type = "weight"
      · have hok : ∃ c, generateGS1Code p rand = .ok c := by
          simp only [generateGS1Code]
          rw [if_neg hne, if_neg hp, if_pos hw]
          exact ⟨_, rfl⟩
        obtain ⟨c, hc⟩ := hok
        refine ⟨?_, ?_, ?_⟩ <;> simp [hc, hgs, hp, hw]
      · have hcode : generateGS1Code p rand = .error .invalidProductType := by
          simp only [generateGS1Code]
          rw [if_neg hne, if_neg hp, if_neg hw]
        refine ⟨?_, ?_, ?_⟩ <;> simp [hcode, hgs, hp, hw]

/-- C10 counterexample: an over-long goodsId does not make the call succeed
unconditionally — with more than 8 digits but an invalid type the call
still fails, refuting the claim's "the call succeeds" as stated. -/
theorem gs1_overlong_goodsId_not_always_ok :
    generateGS1Code { goodsId := "123456789", type := "x" } (fun _ => 0)
      = .error .invalidProductType := by
  rfl

lemma digitsOf_take8 (g : String) :
    (digitsOf (⟨(digitsOf g).data.take 8⟩ : String)).data.take 8
      = (digitsOf g).data.take 8 := by
  show (((g.data.filter Char.isDigit).take 8).filter Char.isDigit).take 8
      = (g.data.filter Char.isDigit).take 8
  rw [List.filter_eq_self.mpr]
  · simp [List.take_take]
  · intro a ha
    exact List.of_mem_filter (List.mem_of_mem_take ha)

lemma generateGS1Code_goodsId_congr (p : GS1Params) (g : String) (rand : Nat → Nat)
    (hgg : (digitsOf g).data.take 8 = (digitsOf p.goodsId).data.take 8) :
    generateGS1Code { p with goodsId := g } rand = generateGS1Code p rand := by
  cases p
  simp only [generateGS1Code]
  rw [hgg]

/-- C10 amended: generateGS1Code silently truncates over-long goodsIds: with
more than 8 digit characters after stripping non-digits, its output equals
the output with the goodsId replaced by its first 8 digits, and the call
succeeds whenever the type is 'piece' or 'weight' (it is never rejected for
length). -/
theorem gs1_goodsId_truncation (p : GS1Params) (rand : Nat → Nat)
    (h : 8 < (digitsOf p.goodsId).data.length) :
    generateGS1Code p rand
      = generateGS1Code { p with goodsId := ⟨(digitsOf p.goodsId).data.take 8⟩ } rand
    ∧ ((p.type = "piece" ∨ p.type = "weight") → ∃ c, generateGS1Code p rand = .ok c) := by
  have hnil : (digitsOf p.goodsId).data ≠ [] := by
    intro hc
    rw [hc] at h
    exact absurd h (by decide)
  constructor
  · exact (generateGS1Code_goodsId_congr p _ rand (digitsOf_take8 p.goodsId)).symm
  · intro hty
    have hne := mkTake8_ne_empty hnil
    rcases hty with hp | hw
    · simp only [generateGS1Code]
      rw [if_neg hne, if_pos hp]
      exact ⟨_, rfl⟩
    · have hp : ¬ (p.type = "piece") := by rw [hw]; decide
      simp only [generateGS1Code]
      rw [if_neg hne, if_neg hp, if_pos hw]
      exact ⟨_, rfl⟩

/-- C10 witness at a 10-digit goodsId. -/
theorem gs1_goodsId_truncation_witness :
    (8 < (digitsOf "1234567890").data.length) ∧
    generateGS1Code { goodsId := "1234567890", type := "piece" } (fun _ => 0)
      = generateGS1Code
          { ({ goodsId := "1234567890", type := "piece" } : GS1Params) with
            goodsId := ⟨(digitsOf "1234567890").data.take 8⟩ } (fun _ => 0) :=
  ⟨by decide,
   (gs1_goodsId_truncation { goodsId := "1234567890", type := "piece" }
      (fun _ => 0) (by decide)).1⟩

/- ------------------------------------------------------------------ -/
/- C3                                                                  -/
/- ------------------------------------------------------------------ -/

/-- C3: for type 'piece' with a fractional quantity (derived decimal
position > 0) and a positive discount below 100, encodeGS1 produces, in
order: the AI 240 GoodsId segment, the AI 37 quantity segment whose raw
value is round(quantity * 10^decimalPosition) zero-padded to 8 digits, the
2-digit AI 98 discount segment, the 8-character AI 21 unique-ID segment
(auto-generated when not supplied), and the AI 97 decimal-position segment
(emitted since decimalPosition > 0), each terminated by the group
separator. -/
theorem gs1_piece_fractional_layout (q : DecNum) (goodsId : String) (d : Nat)
    (rand : Nat → Nat)
    (hfrac : 0 < calculateDecimalPosition q)
    (hg : (digitsOf goodsId).data ≠ [])
    (hd1 : 0 < d) (hd2 : d < 100) :
    generateGS1Code
        { goodsId := goodsId, type := "piece", quantity := some q, discount := d } rand
      = .ok (gs1Header ++ gsStr ++ aiGoodsId ++ (⟨(digitsOf goodsId).data.take 8⟩ : String)
          ++ gsStr ++ aiQuantity ++ padZerosNat (qtyRawOf q (calculateDecimalPosition q)) 8
          ++ gsStr ++ aiDiscount ++ padZerosNat d 2 ++ gsStr ++ aiUniqueId
          ++ generateUniqueId rand ++ gsStr ++ aiDecimalPos
          ++ Nat.repr (calculateDecimalPosition q) ++ gsStr)
    ∧ (generateUniqueId rand).data.length = 8
    ∧ (padZerosNat d 2).data.length = 2 := by
  refine ⟨?_, ?_, ?_⟩
  · simp only [generateGS1Code, Option.getD_none, Option.getD_some]
    rw [if_neg (mkTake8_ne_empty hg), if_pos trivial, if_pos hfrac, if_pos hd1]
    rfl
  · simp [generateUniqueId]
  · have h2 := repr_len_le_two d hd2
    simp only [padZerosNat, padZeros]
    show (List.replicate (2 - (Nat.repr d).data.length) '0' ++ (Nat.repr d).data).length = 2
    rw [List.length_append, List.length_replicate]
    omega

/-- C3 witness at the worked example goodsId '123', quantity 12.45
(= 1245/10^2), discount 10. -/
theorem gs1_piece_fractional_layout_witness :
    (0 < calculateDecimalPosition ⟨1245, 2⟩ ∧ (digitsOf "123").data ≠ []
      ∧ 0 < 10 ∧ 10 < 100) ∧
    generateGS1Code
        { goodsId := "123", type := "piece", quantity := some ⟨1245, 2⟩, discount := 10 }
        (fun _ => 0)
      = .ok (gs1Header ++ gsStr ++ aiGoodsId ++ (⟨(digitsOf "123").data.take 8⟩ : String)
          ++ gsStr ++ aiQuantity
          ++ padZerosNat (qtyRawOf ⟨1245, 2⟩ (calculateDecimalPosition ⟨1245, 2⟩)) 8
          ++ gsStr ++ aiDiscount ++ padZerosNat 10 2 ++ gsStr ++ aiUniqueId
          ++ generateUniqueId (fun _ => 0) ++ gsStr ++ aiDecimalPos
          ++ Nat.repr (calculateDecimalPosition ⟨1245, 2⟩) ++ gsStr) :=
  ⟨⟨by decide, by decide, by decide, by decide⟩,
   (gs1_piece_fractional_layout ⟨1245, 2⟩ "123" 10 (fun _ => 0)
      (by decide) (by decide) (by decide) (by decide)).1⟩

/- ------------------------------------------------------------------ -/
/- C4                                                                  -/
/- ------------------------------------------------------------------ -/

/-- Specification-level statement that the text has a 14-digit run
immediately after the literal marker "01" at position i. -/
def ai01RunAt (l : List Char) (i : Nat) : Prop :=
  (l.drop i).take 2 = ['0', '1'] ∧ ((l.drop (i + 2)).take 14).length = 14
    ∧ ((l.drop (i + 2)).take 14).all Char.isDigit = true

/-- A valid 13-digit GTIN: 13 digit characters whose last character is the
EAN-13 check digit of the first 12. -/
def validGtin13 (g : String) : Prop :=
  g.data.length = 13 ∧ g.data.all Char.isDigit = true ∧
  g.data.drop 12 = [Nat.digitChar (calcControlEAN13 ⟨g.data.take 12⟩)]

instance (g : String) : Decidable (validGtin13 g) := by
  unfold validGtin13; infer_instance

lemma findAI01_eq_none {l : List Char} (h : ∀ i, ¬ ai01RunAt l i) :
    findAI01 l = none := by
  induction l with
  | nil => rfl
  | cons c rest ih =>
    have h0 : ¬ (c = '0' ∧ rest.take 1 = ['1'] ∧ ((rest.drop 1).take 14).length = 14
        ∧ ((rest.drop 1).take 14).all Char.isDigit = true) := by
      intro hc
      exact h 0 (by
        simp only [ai01RunAt, List.drop_zero]
        exact ⟨by cases rest with
            | nil => simp at hc
            | cons b t =>
              rcases hc with ⟨h1, h2, -⟩
              simp only [List.take_succ_cons] at h2 ⊢
              simp_all
          , by
            rcases hc with ⟨-, -, h3, -⟩
            simpa [List.drop_succ_cons] using h3
          , by
            rcases hc with ⟨-, -, -, h4⟩
            simpa [List.drop_succ_cons] using h4⟩)
    rw [findAI01, if_neg h0]
    exact ih fun i hi => h (i + 1) (by
      simpa [ai01RunAt, List.drop_succ_cons] using hi)

lemma findAI01_layout (sfx g : String)
    (h13 : g.data.length = 13) (hdig : g.data.all Char.isDigit = true) :
    findAI01 (templateLayout01 sfx g).data = some ('0' :: g.data) := by
  have hdata : (templateLayout01 sfx g).data
      = '0' :: '1' :: '0' :: (g.data ++ sfx.data) := by
    show ("01" ++ padZeros g 14 ++ sfx).data = _
    rw [String.data_append, String.data_append]
    show ['0', '1'] ++ (List.replicate (14 - g.data.length) '0' ++ g.data) ++ sfx.data = _
    rw [h13]
    rfl
  rw [hdata, findAI01]
  have htake : (g.data ++ sfx.data).take 13 = g.data := by
    rw [← h13]
    exact List.take_left g.data sfx.data
  rw [if_pos]
  · congr 1
    simp [List.take_succ_cons, htake]
  · refine ⟨rfl, rfl, ?_, ?_⟩
    · simp only [List.drop_succ_cons, List.drop_zero, List.take_succ_cons, htake]
      simp [h13]
    · simp only [List.drop_succ_cons, List.drop_zero, List.take_succ_cons, htake]
      simpa using hdig

/-- C4: for every valid 13-digit GTIN and every template whose layout embeds
AI 01 (the GTIN zero-padded to 14 digits after the literal marker '01'),
extractGtinAsEan13 applied to the encoder's DataMatrix payload returns the
GTIN itself — it finds the first 14-digit run after '01', drops the leading
digit and recomputes the EAN-13 check digit; and it returns null whenever no
such run exists. -/
theorem extract_gtin_roundtrip :
    (∀ (tid g : String) (st : AppState), validGtin13 g →
        extractEAN13FromDM ((generateDM (some g) (some tid) st).1.code) = some g)
    ∧ (∀ (sfx g : String), validGtin13 g →
        extractEAN13FromDM (templateLayout01 sfx g) = some g)
    ∧ (∀ s : String, (∀ i, ¬ ai01RunAt s.data i) → extractEAN13FromDM s = none) := by
  have main : ∀ (sfx g : String), validGtin13 g →
      extractEAN13FromDM (templateLayout01 sfx g) = some g := by
    intro sfx g hv
    obtain ⟨h13, hdig, hlast⟩ := hv
    have hchk := calcControlEAN13_le_nine (⟨g.data.take 12⟩ : String)
    unfold extractEAN13FromDM
    rw [findAI01_layout sfx g h13 hdig]
    have e12 : (('0' :: g.data).drop 1).take 12 = g.data.take 12 := by
      simp [List.drop_succ_cons]
    simp only [e12]
    congr 1
    have hg : g = ⟨g.data.take 12 ++ g.data.drop 12⟩ := by
      cases g
      simp
    conv_rhs => rw [hg]
    rw [hlast]
    show (⟨g.data.take 12⟩ : String) ++ Nat.repr (calcControlEAN13 ⟨g.data.take 12⟩) = _
    apply String.ext
    rw [String.data_append]
    show g.data.take 12 ++ (Nat.repr (calcControlEAN13 ⟨g.data.take 12⟩)).data
        = g.data.take 12 ++ [Nat.digitChar (calcControlEAN13 ⟨g.data.take 12⟩)]
    rw [repr_digit_data _ (by omega)]
  refine ⟨?_, main, ?_⟩
  · intro tid g st hv
    have hne : g ≠ "" := by
      intro hc
      have hlen := hv.1
      rw [hc] at hlen
      exact absurd hlen (by decide)
    show extractEAN13FromDM ((generateDM (some g) (some tid) st).1.code) = some g
    simp only [generateDM]
    rw [if_neg hne]
    exact main _ g hv
  · intro s hs
    unfold extractEAN13FromDM
    rw [findAI01_eq_none hs]

/-- C4 witness at the GTIN from the module's doc comment (its final digit 0
is the EAN-13 check digit of the first 12) and at a payload with no AI 01
run. -/
theorem extract_gtin_roundtrip_witness :
    validGtin13 "4810099003310" ∧
    extractEAN13FromDM ((generateDM (some "4810099003310") (some "type1") {}).1.code)
      = some "4810099003310" :=
  ⟨by decide,
   extract_gtin_roundtrip.1 "type1" "4810099003310" {} (by decide)⟩

/- ------------------------------------------------------------------ -/
/- C5                                                                  -/
/- ------------------------------------------------------------------ -/

lemma displayFromCache_timerValue (i : Int) (s : AppState) :
    (DM.displayFromCache i s).dm.timerValue = s.dm.timerValue := by
  unfold DM.displayFromCache
  split <;> rfl

lemma displayFromCache_timerRunning (i : Int) (s : AppState) :
    (DM.displayFromCache i s).dm.timerRunning = s.dm.timerRunning := by
  unfold DM.displayFromCache
  split <;> rfl

lemma startTimer_timerRunning (s : AppState) :
    (DM.startTimer s).dm.timerRunning = true := rfl

lemma startTimer_timerValue (s : AppState) :
    (DM.startTimer s).dm.timerValue = s.dm.timerValue := by
  simp only [DM.startTimer, DM.stopTimer]
  split <;> simp [displayFromCache_timerValue]

/-- C5 counterexample: with the timer stopped, the DataMatrix controller's
setInterval(5) nevertheless starts the timer (its source unconditionally
calls startTimer), contradicting "restarts the timer only if the timer is
currently running". -/
theorem dm_setInterval_starts_stopped_timer :
    (({} : AppState)).dm.timerRunning = false ∧
    (DM.setInterval (some 5) ({} : AppState)).dm.timerRunning = true := by
  constructor
  · rfl
  · decide

/-- C5 amended: setInterval with NaN or a non-positive value leaves the
state entirely unchanged in both controllers; with a positive value both
update intervalSeconds, but the GS1 controller restarts the timer only while
rotation is running whereas the DM controller always (re)starts it, even
when it was stopped. -/
theorem setInterval_amended :
    (∀ s : AppState, DM.setInterval none s = s ∧ GS1.setInterval none s = s)
    ∧ (∀ (s : AppState) (v : ℚ), v ≤ 0 →
        DM.setInterval (some v) s = s ∧ GS1.setInterval (some v) s = s)
    ∧ (∀ (s : AppState) (v : ℚ), 0 < v →
        (DM.setInterval (some v) s).dm.timerValue = v ∧
        (DM.setInterval (some v) s).dm.timerRunning = true)
    ∧ (∀ (s : AppState) (v : ℚ), 0 < v →
        (GS1.setInterval (some v) s).gs1.timerValue = v ∧
        ((GS1.setInterval (some v) s).gs1.timerRunning
          = if s.gs1.isRotating then true else s.gs1.timerRunning)) := by
  refine ⟨fun s => ⟨rfl, rfl⟩, ?_, ?_, ?_⟩
  · intro s v hv
    constructor
    · simp only [DM.setInterval]
      rw [if_pos hv]
    · simp only [GS1.setInterval]
      rw [if_pos hv]
  · intro s v hv
    have hv' : ¬ (v ≤ 0) := not_le.mpr hv
    constructor
    · simp only [DM.setInterval]
      rw [if_neg hv']
      rw [startTimer_timerValue]
    · simp only [DM.setInterval]
      rw [if_neg hv']
      rw [startTimer_timerRunning]
  · intro s v hv
    have hv' : ¬ (v ≤ 0) := not_le.mpr hv
    constructor
    · simp only [GS1.setInterval]
      rw [if_neg hv']
      split <;> rfl
    · simp only [GS1.setInterval]
      rw [if_neg hv']
      split <;> rfl

/-- C5 witness: the silent-failure case at the concrete invalid value -1. -/
theorem setInterval_amended_witness :
    ((-1 : ℚ) ≤ 0) ∧ DM.setInterval (some (-1)) ({} : AppState) = ({} : AppState) :=
  ⟨by norm_num, (setInterval_amended.2.1 ({} : AppState) (-1) (by norm_num)).1⟩

/- ------------------------------------------------------------------ -/
/- C7                                                                  -/
/- ------------------------------------------------------------------ -/

lemma generateDM_history_length (b t : Option String) (s : AppState) :
    ((generateDM b t s).2).history.length = s.history.length + 1 := by
  simp only [generateDM]
  cases b with
  | none => simp [getNextDemoGtin]
  | some x =>
    by_cases hx : x = ""
    · simp [hx, getNextDemoGtin]
    · simp [hx]

lemma generateAndDisplay_history_length (ds : Option DSMode) (s : AppState) :
    (DM.generateAndDisplay ds s).history.length = s.history.length + newPayloads ds := by
  simp only [DM.generateAndDisplay]
  split
  · cases ds with
    | none => simp [generateDM_history_length, newPayloads]
    | some m =>
      cases m <;>
        simp [generateDM_history_length, newPayloads, getNextDemoGtin]
  · cases ds with
    | none => simp [generateDM_history_length, newPayloads]
    | some m =>
      cases m <;>
        simp [generateDM_history_length, newPayloads, getNextDemoGtin]

lemma displayFromCache_history (i : Int) (s : AppState) :
    (DM.displayFromCache i s).history = s.history := by
  unfold DM.displayFromCache
  split <;> rfl

lemma gs1DisplayCode_history_length (s : AppState) :
    (GS1.displayCode s).history.length
      = s.history.length + (if s.gs1.rotationItems.length = 0 then 0 else 1) := by
  unfold GS1.displayCode
  split <;> rename_i h <;> simp [h]

lemma gs1DisplayCodeManual_history (s : AppState) :
    (GS1.displayCodeManual s).history = s.history := by
  unfold GS1.displayCodeManual
  split <;> rfl

lemma applyOp_history_length (op : AppOp) (s : AppState) :
    (applyOp op s).history.length = s.history.length + opLogCount op s := by
  cases op with
  | dmGenerate ds => simpa [applyOp, opLogCount] using generateAndDisplay_history_length ds s
  | dmDisplayCache i => simp [applyOp, opLogCount, displayFromCache_history]
  | gs1Display => simpa [applyOp, opLogCount] using gs1DisplayCode_history_length s
  | gs1DisplayManual => simp [applyOp, opLogCount, gs1DisplayCodeManual_history]

/-- C7 amended: over any sequence of generate, cache-replay and GS1
rotation-display operations, the activity log grows by exactly newPayloads
per DataMatrix generation (1, or 2 for the differentDM double-scan which
generates two payloads), by 0 per cache replay and per GS1 manual display,
and — deviating from the claim — by 1 per GS1 auto-rotation display of an
already-generated item (whenever the rotation list is non-empty), so the
log count equals the newly-generated count only in the DataMatrix flow. -/
theorem activity_log_per_op (ops : List AppOp) : ∀ s : AppState,
    (runOps ops s).history.length = s.history.length + opsLogCount ops s := by
  induction ops with
  | nil => intro s; simp [runOps, opsLogCount]
  | cons op rest ih =>
    intro s
    simp only [runOps, opsLogCount]
    rw [ih (applyOp op s), applyOp_history_length]
    omega

/-- Concrete GS1 session with a single pre-generated item, used to refute
the claim's global equality. -/
def gs1OneItemState : AppState :=
  { gs1 := { rotationItems := [{ goodsId := "123", code := "CODE1" }], isRotating := true } }

/-- C7 counterexample: two rotation-display operations on a single
pre-generated GS1 item append two activity-log entries (the same payload
logged twice) although the sequence generates no new payload, refuting
"the number of addToHistory calls equals the number of newly generated
payloads". -/
theorem gs1_display_replays_logged :
    gs1OneItemState.history.length = 0 ∧
    (runOps [AppOp.gs1Display, AppOp.gs1Display] gs1OneItemState).history
      = [("GS1", "CODE1"), ("GS1", "CODE1")] := by
  constructor
  · rfl
  · rfl

/- ------------------------------------------------------------------ -/
/- C1                                                                  -/
/- ------------------------------------------------------------------ -/

/-- Payload the DataMatrix encoder produces for a rotation item. -/
def dmPayload (it : DmItem) : String := templateGenerate it.template it.barcode

/-- Session state right after startRotation's reset (dm.controller.js lines
261-266): items snapshotted, cursor and history cleared.  startRotation's
immediate first display equals the first manualNext on this state, so the
claim's N calls of next() are modelled as iterates of manualNext from
here. -/
def dmFreshSession (items : List DmItem) : AppState :=
  { dm := { rotationList := items, isRotating := true } }

/-- Cache entry generated for the i-th rotation item (double-scan off). -/
def dmEntryOf (items : List DmItem) (i : Nat) : DmEntry :=
  { code := dmPayload (items.getD i default),
    barcode := (items.getD i default).barcode,
    templateName := templateDisplayName (items.getD i default).template,
    rotationIdx := i, doubleScanMode := none,
    primaryDisplayAsEan := false, secondaryCode := none }

/-- Closed form of the session state after k manualNext calls on a fresh
session, for k up to the item count. -/
def dmSessionAfter (items : List DmItem) (k : Nat) : AppState :=
  { dm := { selectedTemplate := "type1", rotationList := items,
            rotationIndex := k % items.length, isRotating := true,
            generatedCodes := (List.range k).map (dmEntryOf items),
            codeHistoryIndex := (k : Int) - 1,
            timerValue := 2, remaining := 2, timerRunning := false,
            displayedPrimary := if k = 0 then "" else dmPayload (items.getD (k - 1) default),
            displayedSecondary := none },
    gs1 := {}, demoIndex := 0,
    history := (List.range k).map (fun i => ("DM", dmPayload (items.getD i default))) }

lemma generateAndDisplay_session_step (items : List DmItem) (k : Nat)
    (hwf : ∀ it ∈ items, it.barcode ≠ "" ∧ it.template ≠ "")
    (hk : k < items.length) :
    DM.generateAndDisplay none (dmSessionAfter items k) = dmSessionAfter items (k + 1) := by
  have hlen : 0 < items.length := Nat.lt_of_le_of_lt (Nat.zero_le k) hk
  have hmod : k % items.length = k := Nat.mod_eq_of_lt hk
  have hmem : items.getD k default ∈ items := by
    rw [List.getD_eq_getElem items default hk]
    exact List.getElem_mem hk
  obtain ⟨hbar, htmpl⟩ := hwf _ hmem
  simp only [DM.generateAndDisplay, dmSessionAfter, generateDM, jsOrStr, hmod]
  rw [if_pos (⟨trivial, hlen⟩ : True ∧ 0 < items.length)]
  rw [if_neg hbar, if_neg htmpl]
  simp [dmEntryOf, dmPayload, List.range_succ, Nat.succ_ne_zero, Nat.add_sub_cancel,
    Nat.cast_add, Nat.cast_one, add_sub_cancel_right]

lemma manualNext_session_step (items : List DmItem) (k : Nat)
    (hwf : ∀ it ∈ items, it.barcode ≠ "" ∧ it.template ≠ "")
    (hk : k < items.length) :
    DM.manualNext none (dmSessionAfter items k) = dmSessionAfter items (k + 1) := by
  have hdedup : ((List.range k).map (dmEntryOf items)).map (fun e => e.rotationIdx)
      = List.range k := by
    rw [List.map_map]
    have hco : ((fun e => e.rotationIdx) ∘ dmEntryOf items) = fun i => i := rfl
    rw [hco, List.map_id']
  simp only [DM.manualNext]
  rw [if_neg ?c1, if_neg ?c2, if_neg ?c3]
  · exact generateAndDisplay_session_step items k hwf hk
  case c1 =>
    simp only [dmSessionAfter, List.length_map, List.length_range]
    intro hc
    omega
  case c2 =>
    simp only [dmSessionAfter, List.length_map, List.length_range]
    intro hc
    exact absurd hc.2 (by omega)
  case c3 =>
    simp only [dmSessionAfter]
    rw [hdedup, List.dedup_eq_self.mpr (List.nodup_range k), List.length_range]
    intro hc
    omega

lemma iterate_session (items : List DmItem)
    (hwf : ∀ it ∈ items, it.barcode ≠ "" ∧ it.template ≠ "") :
    ∀ k, k ≤ items.length →
      (DM.manualNext none)^[k] (dmFreshSession items) = dmSessionAfter items k := by
  intro k
  induction k with
  | zero =>
    intro _
    simp [dmFreshSession, dmSessionAfter]
  | succ k ih =>
    intro hk1
    rw [Function.iterate_succ_apply', ih (Nat.le_of_succ_le hk1)]
    exact manualNext_session_step items k hwf (Nat.lt_of_succ_le hk1)

lemma manualNext_session_wrap (items : List DmItem) (hlen : 0 < items.length) :
    DM.manualNext none (dmSessionAfter items items.length)
      = { dmSessionAfter items items.length with
          dm := { (dmSessionAfter items items.length).dm with
            codeHistoryIndex := 0,
            displayedPrimary := dmPayload (items.getD 0 default),
            displayedSecondary := none } } := by
  have hN : (0:Int) < (items.length : Int) := by exact_mod_cast hlen
  simp only [DM.manualNext, dmSessionAfter, List.length_map, List.length_range]
  rw [if_pos ⟨hlen, le_refl _⟩]
  have htmod : Int.tmod ((items.length : Int) - 1 + 1) (items.length : Int) = 0 := by
    rw [sub_add_cancel]
    exact Int.tmod_self
  rw [htmod]
  simp only [DM.displayFromCache, List.length_map, List.length_range]
  rw [if_neg (by push_neg; exact ⟨le_refl _, hN⟩)]
  have hget : ((List.range items.length).map (dmEntryOf items)).getD (Int.toNat 0) default
      = dmEntryOf items 0 := by
    have h0 : (0:Int).toNat = 0 := rfl
    rw [h0, List.getD_eq_getElem _ _ (by simpa using hlen)]
    simp [List.getElem_map, List.getElem_range]
  rw [hget]
  simp [dmEntryOf, dmSessionAfter]

/-- C1: on a rotation session over N non-empty, distinct items, the first N
manualNext calls display every item's payload exactly once in source order;
the (N+1)-th call displays the exact payload string of the 1st call again,
replayed from the cache: the generated-codes history still holds exactly N
entries, so nothing was regenerated. -/
theorem dm_rotation_replay (items : List DmItem)
    (hN : 0 < items.length)
    (_hnd : items.Nodup)
    (hwf : ∀ it ∈ items, it.barcode ≠ "" ∧ it.template ≠ "") :
    (∀ k, k < items.length →
        ((DM.manualNext none)^[k + 1] (dmFreshSession items)).dm.displayedPrimary
          = dmPayload (items.getD k default))
    ∧ ((DM.manualNext none)^[items.length + 1] (dmFreshSession items)).dm.displayedPrimary
        = ((DM.manualNext none)^[1] (dmFreshSession items)).dm.displayedPrimary
    ∧ ((DM.manualNext none)^[items.length + 1] (dmFreshSession items)).dm.generatedCodes.length
        = items.length := by
  have hiter := iterate_session items hwf
  refine ⟨?_, ?_, ?_⟩
  · intro k hk
    rw [hiter (k + 1) (Nat.succ_le_of_lt hk)]
    simp [dmSessionAfter]
  · rw [Function.iterate_succ_apply', hiter items.length (le_refl _),
      manualNext_session_wrap items hN, hiter 1 hN]
    simp [dmSessionAfter]
  · rw [Function.iterate_succ_apply', hiter items.length (le_refl _),
      manualNext_session_wrap items hN]
    simp [dmSessionAfter]

/-- Concrete two-item rotation list for the C1 witness. -/
def dmItemsW : List DmItem :=
  [{ barcode := "4810099003310", template := "type1" },
   { barcode := "4606224236186", template := "type2" }]

/-- C1 witness on a concrete two-item session: the 3rd call replays the 1st
call's payload. -/
theorem dm_rotation_replay_witness :
    (0 < dmItemsW.length ∧ dmItemsW.Nodup
      ∧ ∀ it ∈ dmItemsW, it.barcode ≠ "" ∧ it.template ≠ "") ∧
    ((DM.manualNext none)^[dmItemsW.length + 1] (dmFreshSession dmItemsW)).dm.displayedPrimary
      = ((DM.manualNext none)^[1] (dmFreshSession dmItemsW)).dm.displayedPrimary :=
  ⟨⟨by decide, by decide, by decide⟩,
   (dm_rotation_replay dmItemsW (by decide) (by decide) (by decide)).2.1⟩

end BarGen
